import Mathlib

/-
Verification of the PodSummarize backend job-pipeline orchestrator.

The definitions below are a shallow embedding of backend/app/services/pipeline.py,
backend/app/services/diarization.py, backend/app/services/llm.py,
backend/app/services/storage.py and backend/app/main.py.  Python dicts are
insertion-ordered association lists, datetime.utcnow readings are natural numbers
supplied by an abstract clock, exceptions are Except values, and the external
provider calls (Whisper, Hoard, the LLM HTTP call, the TTS HTTP call, disk writes)
are inputs recording the outcome each call would have had in one run.
-/

namespace PodSummarize

/-- Processing stages, from models.ProcessingStage. -/
inductive ProcessingStage where
  | uploaded
  | transcribing
  | diarizing
  | summarizing
  | tts
  | completed
  | failed
  deriving DecidableEq

/-- One speaker-attributed transcript turn, from models.SpeakerTurn.  The second
offset field is named end in the source, a Lean keyword, so it is called stop here;
time offsets are modelled as integers because the pipeline only ever copies them. -/
structure SpeakerTurn where
  speaker : String
  start : Int
  stop : Int
  text : String
  deriving DecidableEq

/-- Structured transcript, from models.TranscriptResult. -/
structure TranscriptResult where
  language : Option String
  duration : Option Int
  turns : List SpeakerTurn
  deriving DecidableEq

/-- Per-speaker highlight section, from models.SummarySection. -/
structure SummarySection where
  speaker : String
  highlights : List String
  deriving DecidableEq

/-- Structured summary, from models.SummaryResult. -/
structure SummaryResult where
  overview : String
  per_speaker : List SummarySection
  key_points : List String
  deriving DecidableEq

/-- Per-job status record, from models.ProcessingStatus. -/
structure ProcessingStatus where
  job_id : String
  stage : ProcessingStage
  detail : Option String
  created_at : Nat
  updated_at : Nat
  errors : List String
  assets : List (String × String)
  deriving DecidableEq

/-- Lookup in a Python dict modelled as an insertion-ordered association list. -/
def dictGet {α : Type} (m : List (String × α)) (k : String) : Option α :=
  match m with
  | [] => none
  | (k0, v) :: rest => if k0 = k then some v else dictGet rest k

/-- Python dict assignment m[k] = v: replaces the value in place when the key
exists, otherwise appends the new binding. -/
def dictSet {α : Type} (m : List (String × α)) (k : String) (v : α) : List (String × α) :=
  match m with
  | [] => [(k, v)]
  | (k0, v0) :: rest => if k0 = k then (k0, v) :: rest else (k0, v0) :: dictSet rest k v

/-- In-memory job tracker, from pipeline.PipelineState. -/
structure PipelineState where
  _jobs : List (String × ProcessingStatus)
  _transcripts : List (String × TranscriptResult)
  _summaries : List (String × SummaryResult)
  _summary_audio : List (String × String)
  deriving DecidableEq

/-- Embedding of PipelineState.create_status: builds a fresh Uploaded status with
both timestamps set to the current clock reading and writes it into _jobs with a
plain dict assignment, so an existing record under the same id is replaced. -/
def PipelineState.create_status (s : PipelineState) (job_id : String) (now : Nat) :
    PipelineState :=
  let status : ProcessingStatus :=
    { job_id := job_id, stage := ProcessingStage.uploaded, detail := none
      created_at := now, updated_at := now, errors := [], assets := [] }
  { s with _jobs := dictSet s._jobs job_id status }

/-- Embedding of PipelineState.update_stage; the error case models the KeyError
raised by the subscript when the job is absent. -/
def PipelineState.update_stage (s : PipelineState) (job_id : String)
    (stage : ProcessingStage) (detail : Option String) (now : Nat) :
    Except Unit PipelineState :=
  match dictGet s._jobs job_id with
  | none => Except.error ()
  | some status =>
      let status2 := { status with stage := stage, detail := detail, updated_at := now }
      Except.ok { s with _jobs := dictSet s._jobs job_id status2 }

/-- Embedding of PipelineState.add_error: appends the message, sets the stage to
failed and refreshes updated_at; KeyError when the job is absent. -/
def PipelineState.add_error (s : PipelineState) (job_id : String) (message : String)
    (now : Nat) : Except Unit PipelineState :=
  match dictGet s._jobs job_id with
  | none => Except.error ()
  | some status =>
      let status2 :=
        { status with
          stage := ProcessingStage.failed
          errors := status.errors ++ [message]
          updated_at := now }
      Except.ok { s with _jobs := dictSet s._jobs job_id status2 }

/-- Embedding of PipelineState.store_transcript: a plain dict assignment into
_transcripts, leaving the job record untouched. -/
def PipelineState.store_transcript (s : PipelineState) (job_id : String)
    (transcript : TranscriptResult) : PipelineState :=
  { s with _transcripts := dictSet s._transcripts job_id transcript }

/-- Embedding of PipelineState.store_summary. -/
def PipelineState.store_summary (s : PipelineState) (job_id : String)
    (summary : SummaryResult) : PipelineState :=
  { s with _summaries := dictSet s._summaries job_id summary }

/-- Embedding of PipelineState.store_summary_audio. -/
def PipelineState.store_summary_audio (s : PipelineState) (job_id : String)
    (path : String) : PipelineState :=
  { s with _summary_audio := dictSet s._summary_audio job_id path }

/-- Embedding of the inline asset assignment pipeline_state.get(job_id).assets[name] = ref
used by process_job and register_audio_asset; KeyError when the job is absent.
Note that it does not touch updated_at. -/
def PipelineState.set_asset (s : PipelineState) (job_id name ref : String) :
    Except Unit PipelineState :=
  match dictGet s._jobs job_id with
  | none => Except.error ()
  | some status =>
      let status2 := { status with assets := dictSet status.assets name ref }
      Except.ok { s with _jobs := dictSet s._jobs job_id status2 }

/-- Embedding of storage.media_url. -/
def media_url (job_id filename : String) : String :=
  "/media/" ++ job_id ++ "/" ++ filename

/-- Stage of the job as visible through a snapshot. -/
def jobStage (s : PipelineState) (job_id : String) : Option ProcessingStage :=
  (dictGet s._jobs job_id).map ProcessingStatus.stage

/-- Errors of the job as visible through a snapshot. -/
def jobErrors (s : PipelineState) (job_id : String) : Option (List String) :=
  (dictGet s._jobs job_id).map ProcessingStatus.errors

/-- Updated-at timestamp of the job as visible through a snapshot. -/
def jobUpdatedAt (s : PipelineState) (job_id : String) : Option Nat :=
  (dictGet s._jobs job_id).map ProcessingStatus.updated_at

/-- Assets of the job as visible through a snapshot. -/
def jobAssets (s : PipelineState) (job_id : String) : Option (List (String × String)) :=
  (dictGet s._jobs job_id).map ProcessingStatus.assets

/-- One segment dict returned by the Hoard diarization backend: every field is read
with dict get and may be absent. -/
structure Segment where
  speaker : Option String
  start : Option Int
  stop : Option Int
  text : Option String
  deriving DecidableEq

/-- Fallback branch of diarization.diarize: the indexed list comprehension that
round-robins the two pseudo speakers while copying start, end and text. -/
def fallbackTurns (index : Nat) (turns : List SpeakerTurn) : List SpeakerTurn :=
  match turns with
  | [] => []
  | turn :: rest =>
      { speaker := ["Speaker 1", "Speaker 2"].getD (index % 2) ""
        start := turn.start, stop := turn.stop, text := turn.text }
        :: fallbackTurns (index + 1) rest

/-- Hoard branch of diarization.diarize: the indexed list comprehension over the
backend segments with per-field defaults. -/
def hoardTurns (index : Nat) (segments : List Segment) : List SpeakerTurn :=
  match segments with
  | [] => []
  | segment :: rest =>
      { speaker := segment.speaker.getD ("Speaker " ++ toString (index + 1))
        start := segment.start.getD 0, stop := segment.stop.getD 0
        text := segment.text.getD "" }
        :: hoardTurns (index + 1) rest

/-- Embedding of diarization.diarize.  The hoard argument is none when the
HoardDiarizer import is unavailable (the fallback path runs) and some segments
when the backend is available and diarizer.run returned segments. -/
def diarize (hoard : Option (List Segment)) (transcript_turns : List SpeakerTurn) :
    Except String (List SpeakerTurn) :=
  match hoard with
  | none => Except.ok (fallbackTurns 0 transcript_turns)
  | some diarized_segments =>
      if diarized_segments.isEmpty then
        Except.error "Hoard returned no diarization segments."
      else
        Except.ok (hoardTurns 0 diarized_segments)

/-- Provider JSON dict consumed by llm.summarize: the three response.get reads,
each possibly absent; one per_speaker item is the pair of item.get reads. -/
structure ProviderResponse where
  overview : Option String
  key_points : Option (List String)
  per_speaker : Option (List (Option String × Option (List String)))
  deriving DecidableEq

/-- Python x or y for an optional string: None and the empty string are falsy. -/
def pyOrString (x : Option String) (d : String) : String :=
  match x with
  | none => d
  | some s => if s = "" then d else s

/-- Python x or y for an optional list: None and the empty list are falsy. -/
def pyOrList {α : Type} (x : Option (List α)) (d : List α) : List α :=
  match x with
  | none => d
  | some l => if l.isEmpty then d else l

/-- Embedding of llm.summarize.  The provider HTTP call is external I/O whose
outcome is passed in as provider (an error models a SummarizationError raised
while calling the provider); the empty-transcript guard and the field extraction
with defaults are from the source. -/
def summarize (provider : Except String ProviderResponse)
    (transcript_turns : List SpeakerTurn) : Except String SummaryResult :=
  if transcript_turns.isEmpty then
    Except.error "Transcript is empty."
  else
    match provider with
    | Except.error e => Except.error e
    | Except.ok r =>
        Except.ok
          { overview := pyOrString r.overview "Summary unavailable."
            key_points := pyOrList r.key_points []
            per_speaker := (pyOrList r.per_speaker []).map (fun item =>
              { speaker := item.1.getD "Unknown"
                highlights := pyOrList item.2 [] }) }

/-- Outcomes of the external calls made during one process_job run.
transcribe_audio, the LLM provider call, synthesize_tts and storage.save_text are
provider or disk I/O; hoard is the diarization backend availability and output.
A successful synthesize_tts gives the produced file name; a successful save_text
returns a path whose final component is the requested name. -/
structure Adapters where
  transcribe_audio : Except String (Option String × List SpeakerTurn)
  hoard : Option (List Segment)
  provider : Except String ProviderResponse
  synthesize_tts : Except String String
  save_text : String → Except String Unit

/-- Ghost trace events recorded while executing the embedded process_job:
stageWrite marks an update_stage call, adapterCall marks the invocation of the
stage adapter belonging to that stage, assetWrite marks an assignment into
status.assets, errorAppend marks add_error. -/
inductive Event where
  | stageWrite (stage : ProcessingStage)
  | adapterCall (stage : ProcessingStage)
  | assetWrite (name : String) (ref : String)
  | errorAppend (message : String)
  deriving DecidableEq

/-- Result of one process_job run: final registry state, the ghost event trace,
and whether the coroutine itself propagated an exception (true only when
add_error inside the except handler raised KeyError, which requires the job to
be absent from the registry). -/
structure RunResult where
  state : PipelineState
  trace : List Event
  raised : Bool
  deriving DecidableEq

/-- Except handler of process_job: every exception from the try block is routed
to add_error; if add_error itself raises KeyError the exception escapes the
coroutine. -/
def handleFailure (s : PipelineState) (job_id : String) (tr : List Event)
    (now : Nat) (msg : String) : RunResult :=
  match s.add_error job_id msg now with
  | Except.error _ => { state := s, trace := tr, raised := true }
  | Except.ok s2 => { state := s2, trace := tr ++ [Event.errorAppend msg], raised := false }

/-- Embedding of pipeline.process_job: the sequential try-block stage list with
the except handler.  clock gives the value of datetime.utcnow at its successive
calls along the executed path; audio_path only feeds the adapters, whose
outcomes are already fixed by A.  The assignment transcript.turns =
diarized_turns mutates the object aliased inside _transcripts, modelled by
re-storing the transcript with the replaced turns. -/
def process_job (A : Adapters) (clock : Nat → Nat) (s0 : PipelineState)
    (job_id : String) (audio_path : String) (enable_tts : Bool) : RunResult :=
  match s0.update_stage job_id ProcessingStage.transcribing
      (some "Running transcription") (clock 0) with
  | Except.error _ => handleFailure s0 job_id [] (clock 1) "KeyError"
  | Except.ok s1 =>
    let tr := [Event.stageWrite ProcessingStage.transcribing,
               Event.adapterCall ProcessingStage.transcribing]
    match A.transcribe_audio with
    | Except.error msg => handleFailure s1 job_id tr (clock 1) msg
    | Except.ok (language, turns) =>
      let transcript : TranscriptResult :=
        { language := language, duration := none, turns := turns }
      let s2 := s1.store_transcript job_id transcript
      match A.save_text "transcript.json" with
      | Except.error msg => handleFailure s2 job_id tr (clock 1) msg
      | Except.ok _ =>
        match s2.set_asset job_id "transcript" (media_url job_id "transcript.json") with
        | Except.error _ => handleFailure s2 job_id tr (clock 1) "KeyError"
        | Except.ok s3 =>
          let tr := tr ++ [Event.assetWrite "transcript" (media_url job_id "transcript.json")]
          match s3.update_stage job_id ProcessingStage.diarizing
              (some "Applying Hoard diarization") (clock 1) with
          | Except.error _ => handleFailure s3 job_id tr (clock 2) "KeyError"
          | Except.ok s4 =>
            let tr := tr ++ [Event.stageWrite ProcessingStage.diarizing,
                             Event.adapterCall ProcessingStage.diarizing]
            match diarize A.hoard transcript.turns with
            | Except.error msg => handleFailure s4 job_id tr (clock 2) msg
            | Except.ok diarized_turns =>
              let transcript2 : TranscriptResult := { transcript with turns := diarized_turns }
              let s5 := s4.store_transcript job_id transcript2
              match A.save_text "diarized.json" with
              | Except.error msg => handleFailure s5 job_id tr (clock 2) msg
              | Except.ok _ =>
                match s5.set_asset job_id "diarized_transcript"
                    (media_url job_id "diarized.json") with
                | Except.error _ => handleFailure s5 job_id tr (clock 2) "KeyError"
                | Except.ok s6 =>
                  let tr := tr ++ [Event.assetWrite "diarized_transcript"
                                     (media_url job_id "diarized.json")]
                  match s6.update_stage job_id ProcessingStage.summarizing
                      (some "Generating LLM summary") (clock 2) with
                  | Except.error _ => handleFailure s6 job_id tr (clock 3) "KeyError"
                  | Except.ok s7 =>
                    let tr := tr ++ [Event.stageWrite ProcessingStage.summarizing,
                                     Event.adapterCall ProcessingStage.summarizing]
                    match summarize A.provider transcript2.turns with
                    | Except.error msg => handleFailure s7 job_id tr (clock 3) msg
                    | Except.ok summary =>
                      let s8 := s7.store_summary job_id summary
                      match A.save_text "summary.json" with
                      | Except.error msg => handleFailure s8 job_id tr (clock 3) msg
                      | Except.ok _ =>
                        match s8.set_asset job_id "summary"
                            (media_url job_id "summary.json") with
                        | Except.error _ => handleFailure s8 job_id tr (clock 3) "KeyError"
                        | Except.ok s9 =>
                          let tr := tr ++ [Event.assetWrite "summary"
                                             (media_url job_id "summary.json")]
                          if enable_tts then
                            match s9.update_stage job_id ProcessingStage.tts
                                (some "Synthesizing summary audio") (clock 3) with
                            | Except.error _ => handleFailure s9 job_id tr (clock 4) "KeyError"
                            | Except.ok s10 =>
                              let tr := tr ++ [Event.stageWrite ProcessingStage.tts,
                                               Event.adapterCall ProcessingStage.tts]
                              match A.synthesize_tts with
                              | Except.error msg => handleFailure s10 job_id tr (clock 4) msg
                              | Except.ok fname =>
                                let s11 := s10.store_summary_audio job_id
                                  (media_url job_id fname)
                                match s11.update_stage job_id ProcessingStage.completed
                                    (some "Processing complete") (clock 4) with
                                | Except.error _ =>
                                    handleFailure s11 job_id tr (clock 5) "KeyError"
                                | Except.ok s12 =>
                                    { state := s12
                                      trace := tr ++ [Event.stageWrite ProcessingStage.completed]
                                      raised := false }
                          else
                            match s9.update_stage job_id ProcessingStage.completed
                                (some "Processing complete") (clock 3) with
                            | Except.error _ => handleFailure s9 job_id tr (clock 4) "KeyError"
                            | Except.ok s10 =>
                                { state := s10
                                  trace := tr ++ [Event.stageWrite ProcessingStage.completed]
                                  raised := false }

/-- Embedding of pipeline.launch_background under the serial schedule:
asyncio.create_task registers process_job as an independent task with no
per-job bookkeeping or guard, and running the task to completion before
anything else is one legal asyncio schedule. -/
def launch_background (A : Adapters) (clock : Nat → Nat) (s : PipelineState)
    (job_id : String) (audio_path : String) (enable_tts : Bool) : RunResult :=
  process_job A clock s job_id audio_path enable_tts

/-- Two launch requests for the same job: each schedules its own independent
run; this is their serial execution, the second starting from the state the
first left behind. -/
def launch_twice (A1 A2 : Adapters) (clock1 clock2 : Nat → Nat)
    (s : PipelineState) (job_id : String) (audio_path : String)
    (enable_tts : Bool) : RunResult × RunResult :=
  let r1 := launch_background A1 clock1 s job_id audio_path enable_tts
  let r2 := launch_background A2 clock2 r1.state job_id audio_path enable_tts
  (r1, r2)

/-- Stage values written by update_stage, in trace order. -/
def stageWrites : List Event → List ProcessingStage
  | [] => []
  | Event.stageWrite st :: rest => st :: stageWrites rest
  | _ :: rest => stageWrites rest

/-- Error messages appended by add_error, in trace order. -/
def errorMsgs : List Event → List String
  | [] => []
  | Event.errorAppend m :: rest => m :: errorMsgs rest
  | _ :: rest => errorMsgs rest

/-- Membership test for a stage in a list of stages. -/
def stageMem (st : ProcessingStage) : List ProcessingStage → Bool
  | [] => false
  | s :: rest => if s = st then true else stageMem st rest

/-- Checks that every adapterCall in the trace is preceded by a stageWrite of
the same stage; seen accumulates the stages already written. -/
def precededOk : List Event → List ProcessingStage → Bool
  | [], _ => true
  | Event.adapterCall st :: rest, seen => stageMem st seen && precededOk rest seen
  | Event.stageWrite st :: rest, seen => precededOk rest (st :: seen)
  | _ :: rest, seen => precededOk rest seen

/-- Trace of one fully successful process_job run. -/
def fullTrace (job_id : String) (enable_tts : Bool) : List Event :=
  [Event.stageWrite ProcessingStage.transcribing,
   Event.adapterCall ProcessingStage.transcribing,
   Event.assetWrite "transcript" (media_url job_id "transcript.json"),
   Event.stageWrite ProcessingStage.diarizing,
   Event.adapterCall ProcessingStage.diarizing,
   Event.assetWrite "diarized_transcript" (media_url job_id "diarized.json"),
   Event.stageWrite ProcessingStage.summarizing,
   Event.adapterCall ProcessingStage.summarizing,
   Event.assetWrite "summary" (media_url job_id "summary.json")] ++
  (if enable_tts then
    [Event.stageWrite ProcessingStage.tts, Event.adapterCall ProcessingStage.tts]
   else []) ++
  [Event.stageWrite ProcessingStage.completed]

/-- One mutation of a job as performed through the PipelineState mutators by
process_job and the API entry points. -/
inductive Mutation where
  | updateStage (stage : ProcessingStage) (detail : Option String)
  | addError (message : String)
  | setAsset (name ref : String)
  | storeTranscript (t : TranscriptResult)
  | storeSummary (r : SummaryResult)
  | storeSummaryAudio (p : String)
  deriving DecidableEq

/-- Apply one mutation at one clock reading via the embedded primitives; the
mutators that read no clock at all in the source simply ignore now. -/
def applyMutation (s : PipelineState) (job_id : String) (m : Mutation)
    (now : Nat) : Except Unit PipelineState :=
  match m with
  | Mutation.updateStage stage detail => s.update_stage job_id stage detail now
  | Mutation.addError msg => s.add_error job_id msg now
  | Mutation.setAsset name ref => s.set_asset job_id name ref
  | Mutation.storeTranscript t => Except.ok (s.store_transcript job_id t)
  | Mutation.storeSummary r => Except.ok (s.store_summary job_id r)
  | Mutation.storeSummaryAudio p => Except.ok (s.store_summary_audio job_id p)

/-- Apply a sequence of timed mutations, stopping at the first KeyError. -/
def applyMutations (s : PipelineState) (job_id : String) :
    List (Mutation × Nat) → Except Unit PipelineState
  | [] => Except.ok s
  | (m, now) :: rest =>
      match applyMutation s job_id m now with
      | Except.error e => Except.error e
      | Except.ok s2 => applyMutations s2 job_id rest

/-- File-name test of the source.* glob used by start_processing: the name
begins with the seven characters of the literal source-dot stem. -/
def matchesSourceGlob (f : String) : Bool :=
  "source.".data.isPrefixOf f.data

/-- HTTP-level outcome of the process endpoint in main.start_processing. -/
inductive ApiResult where
  | notFound (detail : String)
  | badRequest (detail : String)
  | unhandledError (message : String)
  | accepted (audio_path : String) (status : ProcessingStatus)
  deriving DecidableEq

/-- True exactly on the 404 outcome. -/
def ApiResult.isNotFound : ApiResult → Bool
  | ApiResult.notFound _ => true
  | _ => false

/-- Embedding of main.start_processing.  storage.get_job_dir only runs mkdir
with parents and exist_ok and returns the path, so it never raises KeyError and
the except-KeyError branch of the source returning 404 is unreachable; disk
gives the file names currently present in the job directory, which get_job_dir
creates if missing.  When a source file exists but the job is absent from the
registry, ensure_job raises KeyError, which no handler catches. -/
def start_processing (disk : String → List String) (s : PipelineState)
    (job_id : String) (enable_tts : Bool) : ApiResult :=
  let audio_candidates := (disk job_id).filter (fun f => matchesSourceGlob f)
  match audio_candidates with
  | [] => ApiResult.badRequest "Audio source not available for processing."
  | audio_path :: _ =>
      match dictGet s._jobs job_id with
      | none => ApiResult.unhandledError "KeyError"
      | some status => ApiResult.accepted audio_path status

/-- Concrete transcript turn used by the closed witnesses and counterexamples. -/
def turnA : SpeakerTurn := { speaker := "A", start := 0, stop := 1, text := "hi" }

/-- Concrete transcript turn used by the closed witnesses and counterexamples. -/
def turnB : SpeakerTurn := { speaker := "B", start := 1, stop := 2, text := "there" }

/-- Concrete Hoard segment used by the closed witnesses and counterexamples. -/
def seg1 : Segment := { speaker := some "S", start := some 0, stop := some 1, text := some "x" }

/-- Job record of a job that has already failed once, with one recorded error. -/
def jobOneFailed : ProcessingStatus :=
  { job_id := "job1", stage := ProcessingStage.failed, detail := none
    created_at := 0, updated_at := 1, errors := ["boom"], assets := [] }

/-- Registry holding only the failed job. -/
def stateOneFailed : PipelineState :=
  { _jobs := [("job1", jobOneFailed)], _transcripts := [], _summaries := []
    _summary_audio := [] }

/-- Registry state after a re-triggered run calls update_stage on the failed job. -/
def stateRetriggered : PipelineState :=
  match stateOneFailed.update_stage "job1" ProcessingStage.transcribing
      (some "Running transcription") 2 with
  | Except.ok s => s
  | Except.error _ => stateOneFailed

/-- Registry state after create_status is called a second time for job1. -/
def stateRecreated : PipelineState := stateOneFailed.create_status "job1" 7

/-- Fresh Uploaded job record with both timestamps at 0. -/
def jobFresh : ProcessingStatus :=
  { job_id := "job1", stage := ProcessingStage.uploaded, detail := none
    created_at := 0, updated_at := 0, errors := [], assets := [] }

/-- Registry holding only the fresh job. -/
def stateFresh : PipelineState :=
  { _jobs := [("job1", jobFresh)], _transcripts := [], _summaries := []
    _summary_audio := [] }

/-- Registry state after an asset registration on the fresh job. -/
def stateAssetWritten : PipelineState :=
  match stateFresh.set_asset "job1" "source_audio" (media_url "job1" "source.mp3") with
  | Except.ok s => s
  | Except.error _ => stateFresh

/-- Provider response used by the all-success adapter bundle. -/
def okProvider : ProviderResponse :=
  { overview := some "test", key_points := some ["k1"]
    per_speaker := some [(some "Speaker 1", some ["hi"])] }

/-- Adapter outcomes where every external call succeeds and Hoard is absent, so
diarization takes the fallback path. -/
def okAdapters : Adapters :=
  { transcribe_audio := Except.ok (some "en", [turnA, turnB])
    hoard := none
    provider := Except.ok okProvider
    synthesize_tts := Except.ok "summary.mp3"
    save_text := fun _ => Except.ok () }

/-- Adapter outcomes identical to okAdapters except that the Hoard backend is
present and returns no segments, so the diarization stage raises. -/
def diarFailAdapters : Adapters := { okAdapters with hoard := some [] }

/-- Adapter outcomes identical to okAdapters except that the Hoard backend
returns a single segment regardless of the input turn count. -/
def oneSegAdapters : Adapters := { okAdapters with hoard := some [seg1] }

/-- Adapter outcomes identical to okAdapters except that transcription returns
an empty turn list, so summarization later raises on empty input. -/
def emptyTurnsAdapters : Adapters :=
  { okAdapters with transcribe_audio := Except.ok (some "en", []) }

/-- Registry with no jobs at all, as right after process start. -/
def emptyState : PipelineState :=
  { _jobs := [], _transcripts := [], _summaries := [], _summary_audio := [] }

/-- Job record as left by add_error: stage failed, message appended, timestamp
refreshed.  Used to state lemmas about the failure path. -/
def failedStatus (st : ProcessingStatus) (msg : String) (now : Nat) : ProcessingStatus :=
  { st with stage := ProcessingStage.failed, errors := st.errors ++ [msg], updated_at := now }

/-- Registry with the record of one job overwritten. -/
def withJob (s : PipelineState) (job_id : String) (st : ProcessingStatus) : PipelineState :=
  { s with _jobs := dictSet s._jobs job_id st }

@[simp] theorem dictGet_dictSet_self {α : Type} (m : List (String × α)) (k : String) (v : α) :
    dictGet (dictSet m k v) k = some v := by
  induction m with
  | nil => simp [dictGet, dictSet]
  | cons p rest ih =>
      obtain ⟨k0, v0⟩ := p
      by_cases h : k0 = k
      · simp [dictGet, dictSet, h]
      · simp [dictGet, dictSet, h, ih]

@[simp] theorem dictGet_dictSet_ne {α : Type} (m : List (String × α)) (k k2 : String) (v : α)
    (h : ¬ k = k2) : dictGet (dictSet m k v) k2 = dictGet m k2 := by
  induction m with
  | nil => simp [dictGet, dictSet, h]
  | cons p rest ih =>
      obtain ⟨k0, v0⟩ := p
      by_cases h0 : k0 = k
      · subst h0
        simp [dictGet, dictSet, h]
      · simp [dictGet, dictSet, h0, ih]

theorem handleFailure_char (s : PipelineState) (job_id : String) (tr : List Event)
    (now : Nat) (msg : String) (st : ProcessingStatus)
    (h : dictGet s._jobs job_id = some st) :
    handleFailure s job_id tr now msg =
      { state := withJob s job_id (failedStatus st msg now)
        trace := tr ++ [Event.errorAppend msg]
        raised := false } := by
  simp [handleFailure, PipelineState.add_error, h, withJob, failedStatus]

set_option maxHeartbeats 2000000 in
theorem process_job_char (A : Adapters) (clock : Nat → Nat) (s0 : PipelineState)
    (job_id audio_path : String) (enable_tts : Bool) (st0 : ProcessingStatus)
    (h : dictGet s0._jobs job_id = some st0) :
    (process_job A clock s0 job_id audio_path enable_tts).raised = false ∧
    precededOk (process_job A clock s0 job_id audio_path enable_tts).trace [] = true ∧
    ((jobStage (process_job A clock s0 job_id audio_path enable_tts).state job_id =
        some ProcessingStage.completed ∧
      jobErrors (process_job A clock s0 job_id audio_path enable_tts).state job_id =
        some st0.errors) ∨
     (jobStage (process_job A clock s0 job_id audio_path enable_tts).state job_id =
        some ProcessingStage.failed ∧
      ∃ msg, jobErrors (process_job A clock s0 job_id audio_path enable_tts).state job_id =
        some (st0.errors ++ [msg]))) := by
  cases hT : A.transcribe_audio with
  | error msg =>
      refine ⟨?_, ?_, Or.inr ⟨?_, msg, ?_⟩⟩ <;>
        simp [process_job, PipelineState.update_stage, handleFailure,
              PipelineState.add_error, PipelineState.store_transcript,
              PipelineState.set_asset, h, hT, jobStage, jobErrors, precededOk, stageMem]
  | ok p =>
    obtain ⟨language, turns⟩ := p
    cases hS1 : A.save_text "transcript.json" with
    | error msg =>
        refine ⟨?_, ?_, Or.inr ⟨?_, msg, ?_⟩⟩ <;>
          simp [process_job, PipelineState.update_stage, handleFailure,
                PipelineState.add_error, PipelineState.store_transcript,
                PipelineState.set_asset, h, hT, hS1, jobStage, jobErrors, precededOk, stageMem]
    | ok u1 =>
      cases hH : A.hoard with
      | some segs =>
        cases segs with
        | nil =>
            refine ⟨?_, ?_, Or.inr ⟨?_, "Hoard returned no diarization segments.", ?_⟩⟩ <;>
              simp [process_job, PipelineState.update_stage, handleFailure,
                    PipelineState.add_error, PipelineState.store_transcript,
                    PipelineState.set_asset, diarize, h, hT, hS1, hH,
                    jobStage, jobErrors, precededOk, stageMem]
        | cons sg sgs =>
          cases hS2 : A.save_text "diarized.json" with
          | error msg =>
              refine ⟨?_, ?_, Or.inr ⟨?_, msg, ?_⟩⟩ <;>
                simp [process_job, PipelineState.update_stage, handleFailure,
                      PipelineState.add_error, PipelineState.store_transcript,
                      PipelineState.set_asset, diarize, h, hT, hS1, hH, hS2,
                      jobStage, jobErrors, precededOk, stageMem]
          | ok u2 =>
            cases hP : A.provider with
            | error msg =>
                refine ⟨?_, ?_, Or.inr ⟨?_, msg, ?_⟩⟩ <;>
                  simp [process_job, PipelineState.update_stage, handleFailure,
                        PipelineState.add_error, PipelineState.store_transcript,
                        PipelineState.set_asset, diarize, summarize, hoardTurns,
                        h, hT, hS1, hH, hS2, hP, jobStage, jobErrors, precededOk, stageMem]
            | ok resp =>
              cases hS3 : A.save_text "summary.json" with
              | error msg =>
                  refine ⟨?_, ?_, Or.inr ⟨?_, msg, ?_⟩⟩ <;>
                    simp [process_job, PipelineState.update_stage, handleFailure,
                          PipelineState.add_error, PipelineState.store_transcript,
                          PipelineState.store_summary, PipelineState.set_asset, diarize,
                          summarize, hoardTurns, h, hT, hS1, hH, hS2, hP, hS3,
                          jobStage, jobErrors, precededOk, stageMem]
              | ok u3 =>
                cases enable_tts with
                | true =>
                  cases hY : A.synthesize_tts with
                  | error msg =>
                      refine ⟨?_, ?_, Or.inr ⟨?_, msg, ?_⟩⟩ <;>
                        simp [process_job, PipelineState.update_stage, handleFailure,
                              PipelineState.add_error, PipelineState.store_transcript,
                              PipelineState.store_summary, PipelineState.set_asset, diarize,
                              summarize, hoardTurns, h, hT, hS1, hH, hS2, hP, hS3, hY,
                              jobStage, jobErrors, precededOk, stageMem]
                  | ok fname =>
                      refine ⟨?_, ?_, Or.inl ⟨?_, ?_⟩⟩ <;>
                        simp [process_job, PipelineState.update_stage, handleFailure,
                              PipelineState.add_error, PipelineState.store_transcript,
                              PipelineState.store_summary, PipelineState.store_summary_audio,
                              PipelineState.set_asset, diarize, summarize, hoardTurns,
                              h, hT, hS1, hH, hS2, hP, hS3, hY,
                              jobStage, jobErrors, precededOk, stageMem]
                | false =>
                    refine ⟨?_, ?_, Or.inl ⟨?_, ?_⟩⟩ <;>
                      simp [process_job, PipelineState.update_stage, handleFailure,
                            PipelineState.add_error, PipelineState.store_transcript,
                            PipelineState.store_summary, PipelineState.set_asset, diarize,
                            summarize, hoardTurns, h, hT, hS1, hH, hS2, hP, hS3,
                            jobStage, jobErrors, precededOk, stageMem]
      | none =>
        cases hS2 : A.save_text "diarized.json" with
        | error msg =>
            refine ⟨?_, ?_, Or.inr ⟨?_, msg, ?_⟩⟩ <;>
              simp [process_job, PipelineState.update_stage, handleFailure,
                    PipelineState.add_error, PipelineState.store_transcript,
                    PipelineState.set_asset, diarize, h, hT, hS1, hH, hS2,
                    jobStage, jobErrors, precededOk, stageMem]
        | ok u2 =>
          cases turns with
          | nil =>
              refine ⟨?_, ?_, Or.inr ⟨?_, "Transcript is empty.", ?_⟩⟩ <;>
                simp [process_job, PipelineState.update_stage, handleFailure,
                      PipelineState.add_error, PipelineState.store_transcript,
                      PipelineState.set_asset, diarize, summarize, fallbackTurns,
                      h, hT, hS1, hH, hS2, jobStage, jobErrors, precededOk, stageMem]
          | cons t ts =>
            cases hP : A.provider with
            | error msg =>
                refine ⟨?_, ?_, Or.inr ⟨?_, msg, ?_⟩⟩ <;>
                  simp [process_job, PipelineState.update_stage, handleFailure,
                        PipelineState.add_error, PipelineState.store_transcript,
                        PipelineState.set_asset, diarize, summarize, fallbackTurns,
                        h, hT, hS1, hH, hS2, hP, jobStage, jobErrors, precededOk, stageMem]
            | ok resp =>
              cases hS3 : A.save_text "summary.json" with
              | error msg =>
                  refine ⟨?_, ?_, Or.inr ⟨?_, msg, ?_⟩⟩ <;>
                    simp [process_job, PipelineState.update_stage, handleFailure,
                          PipelineState.add_error, PipelineState.store_transcript,
                          PipelineState.store_summary, PipelineState.set_asset, diarize,
                          summarize, fallbackTurns, h, hT, hS1, hH, hS2, hP, hS3,
                          jobStage, jobErrors, precededOk, stageMem]
              | ok u3 =>
                cases enable_tts with
                | true =>
                  cases hY : A.synthesize_tts with
                  | error msg =>
                      refine ⟨?_, ?_, Or.inr ⟨?_, msg, ?_⟩⟩ <;>
                        simp [process_job, PipelineState.update_stage, handleFailure,
                              PipelineState.add_error, PipelineState.store_transcript,
                              PipelineState.store_summary, PipelineState.set_asset, diarize,
                              summarize, fallbackTurns, h, hT, hS1, hH, hS2, hP, hS3, hY,
                              jobStage, jobErrors, precededOk, stageMem]
                  | ok fname =>
                      refine ⟨?_, ?_, Or.inl ⟨?_, ?_⟩⟩ <;>
                        simp [process_job, PipelineState.update_stage, handleFailure,
                              PipelineState.add_error, PipelineState.store_transcript,
                              PipelineState.store_summary, PipelineState.store_summary_audio,
                              PipelineState.set_asset, diarize, summarize, fallbackTurns,
                              h, hT, hS1, hH, hS2, hP, hS3, hY,
                              jobStage, jobErrors, precededOk, stageMem]
                | false =>
                    refine ⟨?_, ?_, Or.inl ⟨?_, ?_⟩⟩ <;>
                      simp [process_job, PipelineState.update_stage, handleFailure,
                            PipelineState.add_error, PipelineState.store_transcript,
                            PipelineState.store_summary, PipelineState.set_asset, diarize,
                            summarize, fallbackTurns, h, hT, hS1, hH, hS2, hP, hS3,
                            jobStage, jobErrors, precededOk, stageMem]

set_option maxHeartbeats 2000000 in
theorem process_job_success_char (A : Adapters) (clock : Nat → Nat) (s0 : PipelineState)
    (job_id audio_path : String) (enable_tts : Bool) (st0 : ProcessingStatus)
    (language : Option String) (turns : List SpeakerTurn) (resp : ProviderResponse)
    (fname : String)
    (h : dictGet s0._jobs job_id = some st0)
    (hT : A.transcribe_audio = Except.ok (language, turns))
    (hH : A.hoard = none)
    (hne : turns.isEmpty = false)
    (hS1 : A.save_text "transcript.json" = Except.ok ())
    (hS2 : A.save_text "diarized.json" = Except.ok ())
    (hS3 : A.save_text "summary.json" = Except.ok ())
    (hP : A.provider = Except.ok resp)
    (hY : A.synthesize_tts = Except.ok fname) :
    (process_job A clock s0 job_id audio_path enable_tts).trace =
      fullTrace job_id enable_tts ∧
    jobStage (process_job A clock s0 job_id audio_path enable_tts).state job_id =
      some ProcessingStage.completed ∧
    dictGet (process_job A clock s0 job_id audio_path enable_tts).state._transcripts job_id =
      some { language := language, duration := none, turns := fallbackTurns 0 turns } := by
  cases turns with
  | nil => simp [List.isEmpty] at hne
  | cons t ts =>
    cases enable_tts with
    | true =>
        refine ⟨?_, ?_, ?_⟩ <;>
          simp [process_job, PipelineState.update_stage, handleFailure,
                PipelineState.add_error, PipelineState.store_transcript,
                PipelineState.store_summary, PipelineState.store_summary_audio,
                PipelineState.set_asset, diarize, summarize, fallbackTurns, fullTrace,
                h, hT, hH, hS1, hS2, hS3, hP, hY, jobStage, jobErrors]
    | false =>
        refine ⟨?_, ?_, ?_⟩ <;>
          simp [process_job, PipelineState.update_stage, handleFailure,
                PipelineState.add_error, PipelineState.store_transcript,
                PipelineState.store_summary, PipelineState.set_asset, diarize,
                summarize, fallbackTurns, fullTrace,
                h, hT, hH, hS1, hS2, hS3, hP, jobStage, jobErrors]

theorem applyMutation_step (s : PipelineState) (job_id : String) (st : ProcessingStatus)
    (m : Mutation) (now : Nat) (h : dictGet s._jobs job_id = some st) :
    ∃ s2 st2, applyMutation s job_id m now = Except.ok s2 ∧
      dictGet s2._jobs job_id = some st2 ∧
      (st2.updated_at = st.updated_at ∨ st2.updated_at = now) := by
  cases m <;>
    simp [applyMutation, PipelineState.update_stage, PipelineState.add_error,
          PipelineState.set_asset, PipelineState.store_transcript,
          PipelineState.store_summary, PipelineState.store_summary_audio, h]

theorem applyMutations_monotone (job_id : String) :
    ∀ (ms : List (Mutation × Nat)) (s : PipelineState) (st : ProcessingStatus),
      dictGet s._jobs job_id = some st →
      List.Chain' (fun a b => a ≤ b) (st.updated_at :: ms.map Prod.snd) →
      ∀ s2, applyMutations s job_id ms = Except.ok s2 →
        ∃ st2, dictGet s2._jobs job_id = some st2 ∧ st.updated_at ≤ st2.updated_at := by
  intro ms
  induction ms with
  | nil =>
      intro s st h _ s2 hap
      simp [applyMutations] at hap
      subst hap
      exact ⟨st, h, le_refl _⟩
  | cons p rest ih =>
      obtain ⟨m, now⟩ := p
      intro s st h hchain s2 hap
      obtain ⟨s1, st1, hstep, h1, hupd⟩ := applyMutation_step s job_id st m now h
      rw [applyMutations, hstep] at hap
      rw [List.map_cons, List.chain'_cons'] at hchain
      obtain ⟨hhead, hchain2⟩ := hchain
      have hle : st.updated_at ≤ now := hhead now rfl
      have hle1 : st.updated_at ≤ st1.updated_at := by
        cases hupd with
        | inl e => rw [e]
        | inr e => rw [e]; exact hle
      have hle1b : st1.updated_at ≤ now := by
        cases hupd with
        | inl e => rw [e]; exact hle
        | inr e => rw [e]
      have hchain3 : List.Chain' (fun a b => a ≤ b) (st1.updated_at :: rest.map Prod.snd) := by
        rw [List.chain'_cons'] at hchain2 ⊢
        refine ⟨?_, hchain2.2⟩
        intro x hx
        exact le_trans hle1b (hchain2.1 x hx)
      obtain ⟨st2, h2, hle2⟩ := ih s1 st1 h1 hchain3 s2 hap
      exact ⟨st2, h2, le_trans hle1 hle2⟩

/-- C1: counterexample. For a registered job that has already failed with the
non-empty errors list ["boom"], a later update_stage call (as issued first
thing by a re-triggered pipeline run) sets the stage back to Transcribing while
keeping the errors list non-empty.  So a non-empty errors list does not imply
stage Failed, and a Failed stage is overwritten by a subsequent update_stage. -/
theorem C1_failed_stage_overwritten_counterexample :
    jobStage stateOneFailed "job1" = some ProcessingStage.failed ∧
    jobErrors stateOneFailed "job1" = some ["boom"] ∧
    jobStage stateRetriggered "job1" = some ProcessingStage.transcribing ∧
    jobErrors stateRetriggered "job1" = some ["boom"] ∧
    decide (ProcessingStage.transcribing = ProcessingStage.failed) = false := by
  exact ⟨rfl, rfl, rfl, rfl, rfl⟩

/-- C1 amended: for a job present in the registry, the errors list is
append-only under every job mutator (add_error appends exactly one message and
is the only mutator touching errors), and immediately after add_error the stage
is Failed.  However Failed is not terminal: update_stage unconditionally
overwrites the stage with its argument (so a re-triggered run moves a Failed
job back to Transcribing), and create_status on an existing id resets the whole
record.  The store mutators leave the job record untouched. -/
theorem C1_errors_append_only_failed_not_sticky (s : PipelineState) (job_id : String)
    (st : ProcessingStatus) (h : dictGet s._jobs job_id = some st) :
    (∀ msg now, s.add_error job_id msg now =
        Except.ok (withJob s job_id (failedStatus st msg now))) ∧
    (∀ stage detail now, s.update_stage job_id stage detail now =
        Except.ok (withJob s job_id
          { st with stage := stage, detail := detail, updated_at := now })) ∧
    (∀ name ref, s.set_asset job_id name ref =
        Except.ok (withJob s job_id { st with assets := dictSet st.assets name ref })) ∧
    (∀ t, dictGet (s.store_transcript job_id t)._jobs job_id = some st) ∧
    (∀ r, dictGet (s.store_summary job_id r)._jobs job_id = some st) ∧
    (∀ p, dictGet (s.store_summary_audio job_id p)._jobs job_id = some st) := by
  refine ⟨?_, ?_, ?_, ?_, ?_, ?_⟩ <;> intros <;>
    simp [PipelineState.add_error, PipelineState.update_stage, PipelineState.set_asset,
          PipelineState.store_transcript, PipelineState.store_summary,
          PipelineState.store_summary_audio, withJob, failedStatus, h]

/-- C1 witness: the amended statement applied to the concrete failed job. -/
theorem C1_errors_append_only_witness :
    stateOneFailed.add_error "job1" "x" 5 =
      Except.ok (withJob stateOneFailed "job1" (failedStatus jobOneFailed "x" 5)) :=
  (C1_errors_append_only_failed_not_sticky stateOneFailed "job1" jobOneFailed rfl).1 "x" 5

/-- C3: counterexample. create_status called a second time with an id that is
already present returns without any DuplicateJob failure (its result type has
no error case at all) and silently replaces the first record: the Failed job1
record with its recorded error becomes a fresh Uploaded record with empty
errors and new timestamps. -/
theorem C3_duplicate_create_replaces_counterexample :
    jobStage stateOneFailed "job1" = some ProcessingStage.failed ∧
    jobErrors stateOneFailed "job1" = some ["boom"] ∧
    dictGet stateRecreated._jobs "job1" =
      some { job_id := "job1", stage := ProcessingStage.uploaded, detail := none
             created_at := 7, updated_at := 7, errors := [], assets := [] } ∧
    decide (dictGet stateRecreated._jobs "job1" = some jobOneFailed) = false := by
  exact ⟨rfl, rfl, rfl, rfl⟩

/-- C3 amended: create_status is total, performing no duplicate-id check: for
every prior registry content it installs a fresh Uploaded record with empty
errors and assets and both timestamps at the current clock reading under the
given id, replacing any record already stored there. -/
theorem C3_create_always_replaces (s : PipelineState) (job_id : String) (now : Nat) :
    dictGet (s.create_status job_id now)._jobs job_id =
      some { job_id := job_id, stage := ProcessingStage.uploaded, detail := none
             created_at := now, updated_at := now, errors := [], assets := [] } := by
  simp [PipelineState.create_status]

/-- C7: counterexample. Registering an asset on the fresh job (updated_at 0)
leaves updated_at at 0: set_asset reads no clock at all, so asset registration
does not refresh updatedAt; the same holds for transcript storage.  By
contrast, update_stage at clock reading 5 does refresh it to 5. -/
theorem C7_asset_write_does_not_refresh_counterexample :
    jobUpdatedAt stateFresh "job1" = some 0 ∧
    jobAssets stateAssetWritten "job1" =
      some [("source_audio", "/media/job1/source.mp3")] ∧
    jobUpdatedAt stateAssetWritten "job1" = some 0 ∧
    jobUpdatedAt (stateFresh.store_transcript "job1"
      { language := none, duration := none, turns := [] }) "job1" = some 0 ∧
    (stateFresh.update_stage "job1" ProcessingStage.transcribing none 5).map
      (fun s2 => jobUpdatedAt s2 "job1") = Except.ok (some 5) := by
  exact ⟨rfl, rfl, rfl, rfl, rfl⟩

/-- C7 amended: update_stage and add_error refresh updated_at to the current
clock reading, but set_asset (asset registration) leaves it unchanged and the
transcript, summary and summary-audio stores do not touch the job record at
all; and across any sequence of mutations whose clock readings are
non-decreasing and start no earlier than the current updated_at, updated_at is
monotonically non-decreasing. -/
theorem C7_updated_at_refresh_and_monotone (s : PipelineState) (job_id : String)
    (st : ProcessingStatus) (h : dictGet s._jobs job_id = some st) :
    (∀ stage detail now s2, s.update_stage job_id stage detail now = Except.ok s2 →
        jobUpdatedAt s2 job_id = some now) ∧
    (∀ msg now s2, s.add_error job_id msg now = Except.ok s2 →
        jobUpdatedAt s2 job_id = some now) ∧
    (∀ name ref s2, s.set_asset job_id name ref = Except.ok s2 →
        jobUpdatedAt s2 job_id = some st.updated_at) ∧
    (∀ t, jobUpdatedAt (s.store_transcript job_id t) job_id = some st.updated_at) ∧
    (∀ ms : List (Mutation × Nat),
      List.Chain' (fun a b => a ≤ b) (st.updated_at :: ms.map Prod.snd) →
      ∀ s2, applyMutations s job_id ms = Except.ok s2 →
        ∃ st2, dictGet s2._jobs job_id = some st2 ∧ st.updated_at ≤ st2.updated_at) := by
  refine ⟨?_, ?_, ?_, ?_, ?_⟩
  · intro stage detail now s2 he
    simp [PipelineState.update_stage, h] at he
    subst he
    simp [jobUpdatedAt]
  · intro msg now s2 he
    simp [PipelineState.add_error, h] at he
    subst he
    simp [jobUpdatedAt]
  · intro name ref s2 he
    simp [PipelineState.set_asset, h] at he
    subst he
    simp [jobUpdatedAt]
  · intro t
    simp [PipelineState.store_transcript, jobUpdatedAt, h]
  · intro ms hchain s2 hap
    exact applyMutations_monotone job_id ms s st h hchain s2 hap

/-- C7 witness: the amended statement applied to the fresh job and a concrete
two-mutation sequence with non-decreasing clock readings 3 and 4. -/
theorem C7_updated_at_witness :
    ∃ st2, dictGet (withJob stateFresh "job1"
        { jobFresh with assets := dictSet jobFresh.assets "a" "b", stage := ProcessingStage.transcribing, detail := none, updated_at := 3 })._jobs "job1" = some st2 ∧
      jobFresh.updated_at ≤ st2.updated_at := by
  have H := (C7_updated_at_refresh_and_monotone stateFresh "job1" jobFresh rfl).2.2.2.2
    [(Mutation.updateStage ProcessingStage.transcribing none, 3), (Mutation.setAsset "a" "b", 4)]
    (by simp [jobFresh, List.chain'_cons, List.chain'_singleton])
  exact H _ rfl

theorem fallbackTurns_preserves :
    ∀ (turns : List SpeakerTurn) (k : Nat),
      (fallbackTurns k turns).length = turns.length ∧
      (fallbackTurns k turns).map (fun t => (t.start, t.stop, t.text)) =
        turns.map (fun t => (t.start, t.stop, t.text)) := by
  intro turns
  induction turns with
  | nil => intro k; simp [fallbackTurns]
  | cons t ts ih =>
      intro k
      simp [fallbackTurns, (ih (k + 1)).1, (ih (k + 1)).2]

theorem hoardTurns_length :
    ∀ (segs : List Segment) (k : Nat), (hoardTurns k segs).length = segs.length := by
  intro segs
  induction segs with
  | nil => intro k; simp [hoardTurns]
  | cons sg sgs ih => intro k; simp [hoardTurns, ih (k + 1)]

/-- C8: counterexample. With two input turns and a Hoard backend returning a
single segment, diarize succeeds with a single output turn: the turn count
mismatch (1 versus 2) is not treated as an adapter failure, and a full pipeline
run with these adapters silently accepts it and completes with no error. -/
theorem C8_count_mismatch_accepted_counterexample :
    diarize (some [seg1]) [turnA, turnB] =
      Except.ok [{ speaker := "S", start := 0, stop := 1, text := "x" }] ∧
    decide ((1 : Nat) = [turnA, turnB].length) = false ∧
    jobStage (process_job oneSegAdapters (fun k => k) stateFresh "job1" "a.mp3"
      false).state "job1" = some ProcessingStage.completed ∧
    errorMsgs (process_job oneSegAdapters (fun k => k) stateFresh "job1" "a.mp3"
      false).trace = [] := by
  exact ⟨rfl, rfl, rfl, rfl⟩

/-- C8 amended: the diarization output fully replaces the stored transcript
turns (a successful fallback run stores exactly the diarized turn list); the
fallback diarizer returns exactly one output turn per input turn, preserving
start, end and text and reassigning only the speaker; but there is no
turn-count check: for any non-empty backend segment list the Hoard branch
succeeds with one output turn per backend segment regardless of the input turn
count, and only an empty backend output raises an error. -/
theorem C8_diarize_replaces_and_no_count_check :
    (∀ turns, diarize none turns = Except.ok (fallbackTurns 0 turns) ∧
      (fallbackTurns 0 turns).length = turns.length ∧
      (fallbackTurns 0 turns).map (fun t => (t.start, t.stop, t.text)) =
        turns.map (fun t => (t.start, t.stop, t.text))) ∧
    (∀ segs turns, segs.isEmpty = false →
      diarize (some segs) turns = Except.ok (hoardTurns 0 segs) ∧
      (hoardTurns 0 segs).length = segs.length) ∧
    (∀ (A : Adapters) (clock : Nat → Nat) (s0 : PipelineState)
        (job_id audio_path : String) (enable_tts : Bool) (st0 : ProcessingStatus)
        (language : Option String) (turns : List SpeakerTurn)
        (resp : ProviderResponse) (fname : String),
      dictGet s0._jobs job_id = some st0 →
      A.transcribe_audio = Except.ok (language, turns) →
      A.hoard = none →
      turns.isEmpty = false →
      A.save_text "transcript.json" = Except.ok () →
      A.save_text "diarized.json" = Except.ok () →
      A.save_text "summary.json" = Except.ok () →
      A.provider = Except.ok resp →
      A.synthesize_tts = Except.ok fname →
      dictGet (process_job A clock s0 job_id audio_path enable_tts).state._transcripts
          job_id =
        some { language := language, duration := none, turns := fallbackTurns 0 turns }) := by
  refine ⟨?_, ?_, ?_⟩
  · intro turns
    exact ⟨by simp [diarize], (fallbackTurns_preserves turns 0).1,
           (fallbackTurns_preserves turns 0).2⟩
  · intro segs turns hne
    exact ⟨by simp [diarize, hne], hoardTurns_length segs 0⟩
  · intro A clock s0 job_id audio_path enable_tts st0 language turns resp fname
      h hT hH hne hS1 hS2 hS3 hP hY
    exact (process_job_success_char A clock s0 job_id audio_path enable_tts st0
      language turns resp fname h hT hH hne hS1 hS2 hS3 hP hY).2.2

/-- C8 witness: the amended statement applied to a concrete non-empty backend
output and to the concrete all-success fallback run. -/
theorem C8_diarize_witness :
    (diarize (some [seg1]) [turnA] = Except.ok (hoardTurns 0 [seg1]) ∧
      (hoardTurns 0 [seg1]).length = [seg1].length) ∧
    dictGet (process_job okAdapters (fun k => k) stateFresh "job1" "a.mp3"
        false).state._transcripts "job1" =
      some { language := some "en", duration := none
             turns := fallbackTurns 0 [turnA, turnB] } :=
  ⟨C8_diarize_replaces_and_no_count_check.2.1 [seg1] [turnA] rfl,
   C8_diarize_replaces_and_no_count_check.2.2 okAdapters (fun k => k) stateFresh
     "job1" "a.mp3" false jobFresh (some "en") [turnA, turnB] okProvider
     "summary.mp3" rfl rfl rfl rfl rfl rfl rfl rfl rfl⟩

/-- C2: for a registered job whose transcription stage completed (adapter and
artifact write succeeded) and whose diarization adapter then raises (the Hoard
backend returned no segments), process_job records exactly one new error, sets
the stage to Failed, and stops immediately: the trace ends at the diarization
adapter call with no summarization activity.  The transcript asset written by
the completed transcription stage is present, the final asset map is exactly
the initial one with the transcript entry upserted (nothing rolled back), and
the stored transcript still holds the original transcription turns.  The first
conjunct states the general failure policy for every adapter outcome: a run on
a registered job either completes with errors unchanged or stops in Failed
with exactly one new error recorded. -/
theorem C2_diarization_failure_preserves_transcript
    (A : Adapters) (clock : Nat → Nat) (s0 : PipelineState)
    (job_id audio_path : String) (enable_tts : Bool) (st0 : ProcessingStatus)
    (language : Option String) (turns : List SpeakerTurn)
    (h : dictGet s0._jobs job_id = some st0)
    (hT : A.transcribe_audio = Except.ok (language, turns))
    (hS1 : A.save_text "transcript.json" = Except.ok ())
    (hH : A.hoard = some []) :
    (∀ (B : Adapters) (clock2 : Nat → Nat) (s : PipelineState) (st : ProcessingStatus),
      dictGet s._jobs job_id = some st →
      ((jobStage (process_job B clock2 s job_id audio_path enable_tts).state job_id =
          some ProcessingStage.completed ∧
        jobErrors (process_job B clock2 s job_id audio_path enable_tts).state job_id =
          some st.errors) ∨
       (jobStage (process_job B clock2 s job_id audio_path enable_tts).state job_id =
          some ProcessingStage.failed ∧
        ∃ msg, jobErrors (process_job B clock2 s job_id audio_path
          enable_tts).state job_id = some (st.errors ++ [msg])))) ∧
    jobStage (process_job A clock s0 job_id audio_path enable_tts).state job_id =
      some ProcessingStage.failed ∧
    jobErrors (process_job A clock s0 job_id audio_path enable_tts).state job_id =
      some (st0.errors ++ ["Hoard returned no diarization segments."]) ∧
    jobAssets (process_job A clock s0 job_id audio_path enable_tts).state job_id =
      some (dictSet st0.assets "transcript" (media_url job_id "transcript.json")) ∧
    dictGet (process_job A clock s0 job_id audio_path enable_tts).state._transcripts
        job_id =
      some { language := language, duration := none, turns := turns } ∧
    (process_job A clock s0 job_id audio_path enable_tts).trace =
      [Event.stageWrite ProcessingStage.transcribing,
       Event.adapterCall ProcessingStage.transcribing,
       Event.assetWrite "transcript" (media_url job_id "transcript.json"),
       Event.stageWrite ProcessingStage.diarizing,
       Event.adapterCall ProcessingStage.diarizing,
       Event.errorAppend "Hoard returned no diarization segments."] := by
  refine ⟨fun B clock2 s st hs =>
    (process_job_char B clock2 s job_id audio_path enable_tts st hs).2.2,
    ?_, ?_, ?_, ?_, ?_⟩ <;>
    simp [process_job, PipelineState.update_stage, handleFailure,
          PipelineState.add_error, PipelineState.store_transcript,
          PipelineState.set_asset, diarize, h, hT, hS1, hH,
          jobStage, jobErrors, jobAssets]

/-- C2 witness: the theorem applied to the fresh job with the concrete
diarization-failure adapter bundle. -/
theorem C2_diarization_failure_witness :
    jobStage (process_job diarFailAdapters (fun k => k) stateFresh "job1" "a.mp3"
        false).state "job1" = some ProcessingStage.failed ∧
    jobAssets (process_job diarFailAdapters (fun k => k) stateFresh "job1" "a.mp3"
        false).state "job1" =
      some (dictSet jobFresh.assets "transcript" (media_url "job1" "transcript.json")) := by
  have H := C2_diarization_failure_preserves_transcript diarFailAdapters (fun k => k)
    stateFresh "job1" "a.mp3" false jobFresh (some "en") [turnA, turnB] rfl rfl rfl rfl
  exact ⟨H.2.1, H.2.2.2.1⟩

/-- C9: summarize raises the empty-input error for an empty turn list no matter
what the provider would have answered, and a pipeline run whose turn list is
empty when summarization is reached ends with stage Failed and the empty-input
message recorded as a new error; the trace contains exactly one summarization
adapter call followed immediately by the error append and nothing else, so the
failure is terminal and the stage is not retried. -/
theorem C9_empty_transcript_terminal
    (A : Adapters) (clock : Nat → Nat) (s0 : PipelineState)
    (job_id audio_path : String) (enable_tts : Bool) (st0 : ProcessingStatus)
    (language : Option String)
    (h : dictGet s0._jobs job_id = some st0)
    (hT : A.transcribe_audio = Except.ok (language, []))
    (hH : A.hoard = none)
    (hS1 : A.save_text "transcript.json" = Except.ok ())
    (hS2 : A.save_text "diarized.json" = Except.ok ()) :
    (∀ provider, summarize provider [] = Except.error "Transcript is empty.") ∧
    jobStage (process_job A clock s0 job_id audio_path enable_tts).state job_id =
      some ProcessingStage.failed ∧
    jobErrors (process_job A clock s0 job_id audio_path enable_tts).state job_id =
      some (st0.errors ++ ["Transcript is empty."]) ∧
    (process_job A clock s0 job_id audio_path enable_tts).trace =
      [Event.stageWrite ProcessingStage.transcribing,
       Event.adapterCall ProcessingStage.transcribing,
       Event.assetWrite "transcript" (media_url job_id "transcript.json"),
       Event.stageWrite ProcessingStage.diarizing,
       Event.adapterCall ProcessingStage.diarizing,
       Event.assetWrite "diarized_transcript" (media_url job_id "diarized.json"),
       Event.stageWrite ProcessingStage.summarizing,
       Event.adapterCall ProcessingStage.summarizing,
       Event.errorAppend "Transcript is empty."] := by
  refine ⟨fun provider => rfl, ?_, ?_, ?_⟩ <;>
    simp [process_job, PipelineState.update_stage, handleFailure,
          PipelineState.add_error, PipelineState.store_transcript,
          PipelineState.set_asset, diarize, summarize, fallbackTurns,
          h, hT, hH, hS1, hS2, jobStage, jobErrors]

/-- C9 witness: the theorem applied to the fresh job with the concrete
empty-transcription adapter bundle. -/
theorem C9_empty_transcript_witness :
    jobStage (process_job emptyTurnsAdapters (fun k => k) stateFresh "job1" "a.mp3"
        false).state "job1" = some ProcessingStage.failed ∧
    jobErrors (process_job emptyTurnsAdapters (fun k => k) stateFresh "job1" "a.mp3"
        false).state "job1" = some (["Transcript is empty."]) := by
  have H := C9_empty_transcript_terminal emptyTurnsAdapters (fun k => k) stateFresh
    "job1" "a.mp3" false jobFresh (some "en") rfl rfl rfl rfl rfl
  exact ⟨H.2.1, H.2.2.1⟩

/-- C4: for every run on a registered job, whatever the adapter outcomes, every
adapter call in the trace is preceded by the stage write entering that stage
(the update_stage recording stage entry happens strictly before the adapter is
invoked); and for a successful run the trace is exactly the full stage
sequence, whose written stages are Transcribing, Diarizing, Summarizing, then
SynthesizingSpeech when and only when the TTS flag is set, then Completed, in
that order with no revisits. -/
theorem C4_stage_written_before_adapter_and_exact_sequence
    (A : Adapters) (clock : Nat → Nat) (s0 : PipelineState)
    (job_id audio_path : String) (enable_tts : Bool) (st0 : ProcessingStatus)
    (language : Option String) (turns : List SpeakerTurn) (resp : ProviderResponse)
    (fname : String)
    (h : dictGet s0._jobs job_id = some st0)
    (hT : A.transcribe_audio = Except.ok (language, turns))
    (hH : A.hoard = none)
    (hne : turns.isEmpty = false)
    (hS1 : A.save_text "transcript.json" = Except.ok ())
    (hS2 : A.save_text "diarized.json" = Except.ok ())
    (hS3 : A.save_text "summary.json" = Except.ok ())
    (hP : A.provider = Except.ok resp)
    (hY : A.synthesize_tts = Except.ok fname) :
    (∀ (B : Adapters) (clock2 : Nat → Nat) (s : PipelineState) (st : ProcessingStatus),
        dictGet s._jobs job_id = some st →
        precededOk (process_job B clock2 s job_id audio_path enable_tts).trace [] = true) ∧
    (process_job A clock s0 job_id audio_path enable_tts).trace =
      fullTrace job_id enable_tts ∧
    stageWrites (process_job A clock s0 job_id audio_path enable_tts).trace =
      [ProcessingStage.transcribing, ProcessingStage.diarizing,
       ProcessingStage.summarizing] ++
      (if enable_tts then [ProcessingStage.tts] else []) ++
      [ProcessingStage.completed] := by
  have HS := process_job_success_char A clock s0 job_id audio_path enable_tts st0
    language turns resp fname h hT hH hne hS1 hS2 hS3 hP hY
  refine ⟨fun B clock2 s st hs =>
    (process_job_char B clock2 s job_id audio_path enable_tts st hs).2.1, HS.1, ?_⟩
  rw [HS.1]
  cases enable_tts <;> simp [fullTrace, stageWrites]

/-- C4 witness: the theorem applied to the fresh job with the all-success
adapter bundle and the TTS flag set. -/
theorem C4_stage_sequence_witness :
    (process_job okAdapters (fun k => k) stateFresh "job1" "a.mp3" true).trace =
      fullTrace "job1" true := by
  have H := C4_stage_written_before_adapter_and_exact_sequence okAdapters (fun k => k)
    stateFresh "job1" "a.mp3" true jobFresh (some "en") [turnA, turnB] okProvider
    "summary.mp3" rfl rfl rfl rfl rfl rfl rfl rfl rfl
  exact H.2.1

/-- C5: for any registered job and any combination of adapter outcomes, a
scheduled pipeline run never propagates an exception out of the coroutine, and
either it completes with the errors list unchanged or every stage exception is
captured: the job ends Failed with exactly one new entry appended to errors.
There is no silent failure path. -/
theorem C5_exceptions_recorded_never_propagated
    (A : Adapters) (clock : Nat → Nat) (s0 : PipelineState)
    (job_id audio_path : String) (enable_tts : Bool) (st0 : ProcessingStatus)
    (h : dictGet s0._jobs job_id = some st0) :
    (process_job A clock s0 job_id audio_path enable_tts).raised = false ∧
    ((jobStage (process_job A clock s0 job_id audio_path enable_tts).state job_id =
        some ProcessingStage.completed ∧
      jobErrors (process_job A clock s0 job_id audio_path enable_tts).state job_id =
        some st0.errors) ∨
     (jobStage (process_job A clock s0 job_id audio_path enable_tts).state job_id =
        some ProcessingStage.failed ∧
      ∃ msg, jobErrors (process_job A clock s0 job_id audio_path enable_tts).state job_id =
        some (st0.errors ++ [msg]))) := by
  have H := process_job_char A clock s0 job_id audio_path enable_tts st0 h
  exact ⟨H.1, H.2.2⟩

/-- C5 witness: the theorem applied to the fresh job with the concrete
diarization-failure adapter bundle. -/
theorem C5_exceptions_recorded_witness :
    (process_job diarFailAdapters (fun k => k) stateFresh "job1" "a.mp3"
      false).raised = false :=
  (C5_exceptions_recorded_never_propagated diarFailAdapters (fun k => k) stateFresh
    "job1" "a.mp3" false jobFresh rfl).1

/-- C6: the process endpoint never produces the NotFound outcome, for any
registry content, disk content or job id: storage.get_job_dir creates the job
directory with mkdir instead of raising KeyError, so the except-KeyError 404
branch of start_processing is dead.  A request for a job id absent from the
registry with no files on disk is answered with the 400
Audio-source-unavailable error, and with a stale source file on disk it
escapes as an unhandled KeyError from ensure_job; neither is NotFound. -/
theorem C6_unknown_job_not_reported_notFound :
    (∀ (disk : String → List String) (s : PipelineState) (job_id : String)
        (enable_tts : Bool),
      (start_processing disk s job_id enable_tts).isNotFound = false) ∧
    start_processing (fun _ => []) emptyState "missing" false =
      ApiResult.badRequest "Audio source not available for processing." ∧
    start_processing (fun _ => ["source.mp3"]) emptyState "missing" false =
      ApiResult.unhandledError "KeyError" := by
  refine ⟨?_, rfl, rfl⟩
  intro disk s job_id enable_tts
  simp only [start_processing]
  cases hl : (disk job_id).filter (fun f => matchesSourceGlob f) with
  | nil => simp [ApiResult.isNotFound]
  | cons a rest =>
      cases hg : dictGet s._jobs job_id <;> simp [ApiResult.isNotFound]

/-- C10: counterexample. Two launch requests for the same job, executed under
the legal serial schedule, each run the complete stage sequence: both traces
write Transcribing, Diarizing, Summarizing, Completed in full, so two full
stage sequences are applied instead of at most one, and the second launch on
the already-completed job is not rejected and not a no-op. -/
theorem C10_double_launch_counterexample :
    stageWrites (launch_twice okAdapters okAdapters (fun k => k) (fun k => 10 + k)
        stateFresh "job1" "a.mp3" false).1.trace =
      [ProcessingStage.transcribing, ProcessingStage.diarizing,
       ProcessingStage.summarizing, ProcessingStage.completed] ∧
    stageWrites (launch_twice okAdapters okAdapters (fun k => k) (fun k => 10 + k)
        stateFresh "job1" "a.mp3" false).2.trace =
      [ProcessingStage.transcribing, ProcessingStage.diarizing,
       ProcessingStage.summarizing, ProcessingStage.completed] := by
  exact ⟨rfl, rfl⟩

/-- C10 amended: launch_background installs no per-job guard of any kind: each
launch schedules an independent full process_job run, and when two launches for
the same registered job execute serially (one legal asyncio schedule) each of
the two runs applies the complete stage sequence, duplicating every stage
mutation. -/
theorem C10_no_concurrency_guard
    (A1 A2 : Adapters) (clock1 clock2 : Nat → Nat) (s0 : PipelineState)
    (job_id audio_path : String) (enable_tts : Bool) (st0 : ProcessingStatus)
    (language1 : Option String) (turns1 : List SpeakerTurn) (resp1 : ProviderResponse)
    (fname1 : String)
    (language2 : Option String) (turns2 : List SpeakerTurn) (resp2 : ProviderResponse)
    (fname2 : String)
    (h : dictGet s0._jobs job_id = some st0)
    (hT1 : A1.transcribe_audio = Except.ok (language1, turns1))
    (hH1 : A1.hoard = none)
    (hne1 : turns1.isEmpty = false)
    (hS11 : A1.save_text "transcript.json" = Except.ok ())
    (hS12 : A1.save_text "diarized.json" = Except.ok ())
    (hS13 : A1.save_text "summary.json" = Except.ok ())
    (hP1 : A1.provider = Except.ok resp1)
    (hY1 : A1.synthesize_tts = Except.ok fname1)
    (hT2 : A2.transcribe_audio = Except.ok (language2, turns2))
    (hH2 : A2.hoard = none)
    (hne2 : turns2.isEmpty = false)
    (hS21 : A2.save_text "transcript.json" = Except.ok ())
    (hS22 : A2.save_text "diarized.json" = Except.ok ())
    (hS23 : A2.save_text "summary.json" = Except.ok ())
    (hP2 : A2.provider = Except.ok resp2)
    (hY2 : A2.synthesize_tts = Except.ok fname2) :
    (launch_twice A1 A2 clock1 clock2 s0 job_id audio_path enable_tts).1.trace =
      fullTrace job_id enable_tts ∧
    (launch_twice A1 A2 clock1 clock2 s0 job_id audio_path enable_tts).2.trace =
      fullTrace job_id enable_tts := by
  have H1 := process_job_success_char A1 clock1 s0 job_id audio_path enable_tts st0
    language1 turns1 resp1 fname1 h hT1 hH1 hne1 hS11 hS12 hS13 hP1 hY1
  have hpres := H1.2.1
  rw [jobStage] at hpres
  obtain ⟨st1, hst1, _⟩ := Option.map_eq_some'.mp hpres
  have H2 := process_job_success_char A2 clock2
    (process_job A1 clock1 s0 job_id audio_path enable_tts).state job_id audio_path
    enable_tts st1 language2 turns2 resp2 fname2 hst1 hT2 hH2 hne2 hS21 hS22 hS23
    hP2 hY2
  simp only [launch_twice, launch_background]
  exact ⟨H1.1, H2.1⟩

/-- C10 witness: the amended statement applied to the fresh job with the
all-success adapter bundle used for both launches. -/
theorem C10_no_concurrency_guard_witness :
    (launch_twice okAdapters okAdapters (fun k => k) (fun k => 10 + k)
        stateFresh "job1" "a.mp3" false).2.trace = fullTrace "job1" false :=
  (C10_no_concurrency_guard okAdapters okAdapters (fun k => k) (fun k => 10 + k)
    stateFresh "job1" "a.mp3" false jobFresh (some "en") [turnA, turnB] okProvider
    "summary.mp3" (some "en") [turnA, turnB] okProvider "summary.mp3"
    rfl rfl rfl rfl rfl rfl rfl rfl rfl rfl rfl rfl rfl rfl rfl rfl rfl).2

end PodSummarize
